import Mathlib

/-!
Shallow embedding of the tactile-win modal grid-selection engine.

The definitions below mirror the Rust sources of the repository:
  src/domain/core.rs       (Rect)
  src/domain/keyboard.rs   (GridCoords, QwertyLayout)
  src/domain/grid.rs       (Grid)
  src/domain/selection.rs  (Selection, normalize_coordinates)
  src/app/state.rs         (AppState, StateMachine)
  src/app/controller.rs    (AppController event handling, state effects)
  src/input/keyboard.rs    (KeyEvent, keyboard_hook_proc)

Machine integers: u32 values are modelled as Nat, i32 values as Int.
The Rust casts between the two (written with the as operator) and the
u32 multiplications are modelled with explicit reduction modulo 2^32,
matching two-complement wrap semantics.
-/

deriving instance DecidableEq for Except

namespace TactileWin

/-- Modulus of 32-bit machine arithmetic. -/
def U32_MOD : Nat := 4294967296

/-- Value of the Rust cast of an i32 to u32 (two-complement reinterpretation). -/
def u32_of_i32 (x : Int) : Nat := (x % (U32_MOD : Int)).toNat

/-- Value of the Rust cast of a u32 to i32 (two-complement reinterpretation). -/
def i32_of_u32 (n : Nat) : Int :=
  if n < 2147483648 then (n : Int) else (n : Int) - (U32_MOD : Int)

/-- Wrapping 32-bit unsigned multiplication. -/
def u32_mul (a b : Nat) : Nat := (a * b) % U32_MOD

/-- Wrapping 32-bit signed addition. -/
def i32_add (a b : Int) : Int :=
  (a + b + 2147483648) % (U32_MOD : Int) - 2147483648

/-- Rectangle in real pixel coordinates (src/domain/core.rs, struct Rect). -/
structure Rect where
  x : Int
  y : Int
  w : Int
  h : Int
deriving DecidableEq, Repr

namespace Rect

/-- Rect::new. -/
def new (x y w h : Int) : Rect := ⟨x, y, w, h⟩

end Rect

/-- Error type of src/domain/keyboard.rs (enum KeyboardError). -/
inductive KeyboardError where
  | InvalidKey (ch : Char)
  | UnsupportedGridSize (cols rows : Nat)
deriving DecidableEq, Repr

/-- Grid coordinates, zero-based (src/domain/keyboard.rs, struct GridCoords). -/
structure GridCoords where
  row : Nat
  col : Nat
deriving DecidableEq, Repr

namespace GridCoords

/-- GridCoords::new. -/
def new (row col : Nat) : GridCoords := ⟨row, col⟩

end GridCoords

/-- QWERTY layout parameterized by the active cols x rows window
(src/domain/keyboard.rs, struct QwertyLayout). -/
structure QwertyLayout where
  cols : Nat
  rows : Nat
deriving DecidableEq, Repr

/-- ASCII uppercase conversion, as Rust char::to_ascii_uppercase. -/
def asciiUppercase (c : Char) : Char :=
  if ('a' ≤ c ∧ c ≤ 'z') then Char.ofNat (c.toNat - 32) else c

namespace QwertyLayout

/-- QwertyLayout::new: validates the supported grid sizes. -/
def new (cols rows : Nat) : Except KeyboardError QwertyLayout :=
  if cols = 0 ∨ rows = 0 ∨ cols > 4 ∨ rows > 3 then
    .error (.UnsupportedGridSize cols rows)
  else
    .ok ⟨cols, rows⟩

/-- The fixed QWERTY key table used by key_to_coords, as a partial map from
an uppercase character to its physical (row, col) position. -/
def qwertyCharCoords (key : Char) : Option GridCoords :=
  match key with
  | 'Q' => some (GridCoords.new 0 0)
  | 'W' => some (GridCoords.new 0 1)
  | 'E' => some (GridCoords.new 0 2)
  | 'R' => some (GridCoords.new 0 3)
  | 'T' => some (GridCoords.new 0 4)
  | 'Y' => some (GridCoords.new 0 5)
  | 'U' => some (GridCoords.new 0 6)
  | 'I' => some (GridCoords.new 0 7)
  | 'O' => some (GridCoords.new 0 8)
  | 'P' => some (GridCoords.new 0 9)
  | 'A' => some (GridCoords.new 1 0)
  | 'S' => some (GridCoords.new 1 1)
  | 'D' => some (GridCoords.new 1 2)
  | 'F' => some (GridCoords.new 1 3)
  | 'G' => some (GridCoords.new 1 4)
  | 'H' => some (GridCoords.new 1 5)
  | 'J' => some (GridCoords.new 1 6)
  | 'K' => some (GridCoords.new 1 7)
  | 'L' => some (GridCoords.new 1 8)
  | 'Z' => some (GridCoords.new 2 0)
  | 'X' => some (GridCoords.new 2 1)
  | 'C' => some (GridCoords.new 2 2)
  | 'V' => some (GridCoords.new 2 3)
  | 'B' => some (GridCoords.new 2 4)
  | 'N' => some (GridCoords.new 2 5)
  | 'M' => some (GridCoords.new 2 6)
  | _ => none

/-- QwertyLayout::key_to_coords: case-insensitive lookup followed by a
bounds check against the active grid window. -/
def key_to_coords (l : QwertyLayout) (key : Char) : Except KeyboardError GridCoords :=
  let key := asciiUppercase key
  match qwertyCharCoords key with
  | none => .error (.InvalidKey key)
  | some coords =>
    if coords.row ≥ l.rows ∨ coords.col ≥ l.cols then .error (.InvalidKey key)
    else .ok coords

/-- The fixed key table of valid_keys and coords_to_key; the source marks
absent entries with the NUL character. -/
def qwertyTable : List (List Char) :=
  [ ['Q', 'W', 'E', 'R', 'T', 'Y', 'U', 'I', 'O', 'P'],
    ['A', 'S', 'D', 'F', 'G', 'H', 'J', 'K', 'L', '\x00'],
    ['Z', 'X', 'C', 'V', 'B', 'N', 'M', '\x00', '\x00', '\x00'] ]

/-- QwertyLayout::valid_keys: keys of the active window in row-major order. -/
def valid_keys (l : QwertyLayout) : List Char :=
  (List.range l.rows).flatMap (fun row =>
    (List.range l.cols).filterMap (fun col =>
      ((qwertyTable.get? row).bind (fun r => r.get? col)).filter
        (fun k => k ≠ '\x00')))

/-- QwertyLayout::coords_to_key: table lookup after a bounds check. -/
def coords_to_key (l : QwertyLayout) (coords : GridCoords) : Except KeyboardError Char :=
  if coords.row ≥ l.rows ∨ coords.col ≥ l.cols then .error (.InvalidKey '\x00')
  else
    match ((qwertyTable.get? coords.row).bind (fun r => r.get? coords.col)).filter
        (fun k => k ≠ '\x00') with
    | some key => .ok key
    | none => .error (.InvalidKey '\x00')

end QwertyLayout

/-- Error type of src/domain/grid.rs (enum GridError). -/
inductive GridError where
  | InvalidDimensions (rows cols : Nat)
  | ScreenTooSmall (screen_width screen_height min_cell_width min_cell_height : Nat)
  | InvalidCoordinates (coords : GridCoords) (max_row max_col : Nat)
  | InvalidCellSize (width height : Nat)
deriving DecidableEq, Repr

/-- Logical grid over a screen area (src/domain/grid.rs, struct Grid). -/
structure Grid where
  rows : Nat
  cols : Nat
  screen_area : Rect
  cell_width : Nat
  cell_height : Nat
  keyboard_layout : QwertyLayout
deriving DecidableEq, Repr

namespace Grid

/-- Grid::MIN_CELL_WIDTH. -/
def MIN_CELL_WIDTH : Nat := 480

/-- Grid::MIN_CELL_HEIGHT. -/
def MIN_CELL_HEIGHT : Nat := 360

/-- Grid::new: dimension validation, cell-size derivation and validation,
and construction of the embedded keyboard layout. -/
def new (rows cols : Nat) (screen_area : Rect) : Except GridError Grid :=
  if rows = 0 ∨ cols = 0 then
    .error (.InvalidDimensions rows cols)
  else
    let screen_width := u32_of_i32 screen_area.w
    let screen_height := u32_of_i32 screen_area.h
    let cell_width := screen_width / cols
    let cell_height := screen_height / rows
    if cell_width < MIN_CELL_WIDTH ∨ cell_height < MIN_CELL_HEIGHT then
      .error (.ScreenTooSmall screen_width screen_height MIN_CELL_WIDTH MIN_CELL_HEIGHT)
    else if cell_width = 0 ∨ cell_height = 0 then
      .error (.InvalidCellSize cell_width cell_height)
    else
      match QwertyLayout.new cols rows with
      | .error _ => .error (.InvalidDimensions rows cols)
      | .ok keyboard_layout =>
        .ok ⟨rows, cols, screen_area, cell_width, cell_height, keyboard_layout⟩

/-- Grid::contains_coords. -/
def contains_coords (g : Grid) (coords : GridCoords) : Bool :=
  coords.row < g.rows && coords.col < g.cols

/-- Grid::contains_key. -/
def contains_key (g : Grid) (key : Char) : Bool :=
  (g.keyboard_layout.key_to_coords key).toOption.isSome

/-- Grid::key_to_coords: keyboard lookup with the error mapped to a
placeholder InvalidCoordinates value. -/
def key_to_coords (g : Grid) (key : Char) : Except GridError GridCoords :=
  match g.keyboard_layout.key_to_coords key with
  | .ok coords => .ok coords
  | .error _ => .error (.InvalidCoordinates (GridCoords.new 0 0) (g.rows - 1) (g.cols - 1))

/-- Grid::cell_rect: pixel rectangle of one cell. -/
def cell_rect (g : Grid) (coords : GridCoords) : Except GridError Rect :=
  if coords.row ≥ g.rows ∨ coords.col ≥ g.cols then
    .error (.InvalidCoordinates coords (g.rows - 1) (g.cols - 1))
  else
    let x := i32_add g.screen_area.x (i32_of_u32 (u32_mul coords.col g.cell_width))
    let y := i32_add g.screen_area.y (i32_of_u32 (u32_mul coords.row g.cell_height))
    .ok (Rect.new x y (i32_of_u32 g.cell_width) (i32_of_u32 g.cell_height))

/-- Grid::coords_to_rect: bounding box of the two cells converted to pixels. -/
def coords_to_rect (g : Grid) (start endc : GridCoords) : Except GridError Rect :=
  if !(g.contains_coords start) then
    .error (.InvalidCoordinates start (g.rows - 1) (g.cols - 1))
  else if !(g.contains_coords endc) then
    .error (.InvalidCoordinates endc (g.rows - 1) (g.cols - 1))
  else
    let min_row := min start.row endc.row
    let max_row := max start.row endc.row
    let min_col := min start.col endc.col
    let max_col := max start.col endc.col
    let selection_rows := max_row - min_row + 1
    let selection_cols := max_col - min_col + 1
    let selection_width := u32_mul selection_cols g.cell_width
    let selection_height := u32_mul selection_rows g.cell_height
    let x := i32_add g.screen_area.x (i32_of_u32 (u32_mul min_col g.cell_width))
    let y := i32_add g.screen_area.y (i32_of_u32 (u32_mul min_row g.cell_height))
    .ok (Rect.new x y (i32_of_u32 selection_width) (i32_of_u32 selection_height))

/-- Grid::keys_to_rect: key lookups composed with coords_to_rect. -/
def keys_to_rect (g : Grid) (start_key end_key : Char) : Except GridError Rect :=
  match g.keyboard_layout.key_to_coords start_key with
  | .error _ => .error (.InvalidCoordinates (GridCoords.new 0 0) (g.rows - 1) (g.cols - 1))
  | .ok start_coords =>
    match g.keyboard_layout.key_to_coords end_key with
    | .error _ => .error (.InvalidCoordinates (GridCoords.new 0 0) (g.rows - 1) (g.cols - 1))
    | .ok end_coords => g.coords_to_rect start_coords end_coords

end Grid

/-- Error type of src/domain/selection.rs (enum SelectionError). -/
inductive SelectionError where
  | NoSelectionStarted
  | SelectionAlreadyComplete
  | InvalidCoordinates (coords : GridCoords)
  | KeyboardErr (e : KeyboardError)
deriving DecidableEq, Repr

/-- State of the selection process (src/domain/selection.rs, enum SelectionState). -/
inductive SelectionState where
  | NotStarted
  | InProgress (start : GridCoords)
  | Complete (top_left bottom_right : GridCoords)
deriving DecidableEq, Repr

/-- Two-step selection tracker (src/domain/selection.rs, struct Selection). -/
structure Selection where
  state : SelectionState
deriving DecidableEq, Repr

/-- normalize_coordinates: independent min and max on row and col. -/
def normalize_coordinates (coord1 coord2 : GridCoords) : GridCoords × GridCoords :=
  let min_row := min coord1.row coord2.row
  let max_row := max coord1.row coord2.row
  let min_col := min coord1.col coord2.col
  let max_col := max coord1.col coord2.col
  (GridCoords.new min_row min_col, GridCoords.new max_row max_col)

namespace Selection

/-- Selection::new. -/
def new : Selection := ⟨.NotStarted⟩

/-- Selection::is_empty. -/
def is_empty (s : Selection) : Bool :=
  match s.state with
  | .NotStarted => true
  | _ => false

/-- Selection::is_in_progress. -/
def is_in_progress (s : Selection) : Bool :=
  match s.state with
  | .InProgress _ => true
  | _ => false

/-- Selection::is_complete. -/
def is_complete (s : Selection) : Bool :=
  match s.state with
  | .Complete _ _ => true
  | _ => false

/-- Selection::start. The Rust method mutates the receiver and returns a
Result; the model returns the result paired with the post-state. -/
def start (s : Selection) (coords : GridCoords) : Except SelectionError Unit × Selection :=
  let _ := s
  (.ok (), ⟨.InProgress coords⟩)

/-- Selection::complete: normalizes the pair into Complete; on error the
selection is returned unchanged. -/
def complete (s : Selection) (coords : GridCoords) : Except SelectionError Unit × Selection :=
  match s.state with
  | .InProgress st =>
    let (top_left, bottom_right) := normalize_coordinates st coords
    (.ok (), ⟨.Complete top_left bottom_right⟩)
  | .NotStarted => (.error .NoSelectionStarted, s)
  | .Complete _ _ => (.error .SelectionAlreadyComplete, s)

/-- Selection::get_normalized_coords. -/
def get_normalized_coords (s : Selection) : Option (GridCoords × GridCoords) :=
  match s.state with
  | .Complete top_left bottom_right => some (top_left, bottom_right)
  | _ => none

/-- Selection::reset. -/
def reset (s : Selection) : Selection :=
  let _ := s
  ⟨.NotStarted⟩

/-- Selection::from_coords. -/
def from_coords (start endc : GridCoords) : Selection :=
  let (top_left, bottom_right) := normalize_coordinates start endc
  ⟨.Complete top_left bottom_right⟩

/-- Selection::add_coords: routes to start or complete by current state. -/
def add_coords (s : Selection) (coords : GridCoords) : Except SelectionError Unit × Selection :=
  match s.state with
  | .NotStarted => s.start coords
  | .InProgress _ => s.complete coords
  | .Complete _ _ => (.error .SelectionAlreadyComplete, s)

end Selection

/-- One call against the mutable Selection API, used to describe every
reachable Selection value by a sequence of calls from Selection::new. -/
inductive SelOp where
  | start (c : GridCoords)
  | complete (c : GridCoords)
  | add_coords (c : GridCoords)
  | reset
deriving DecidableEq, Repr

/-- Post-state of one Selection API call (the returned Result is dropped;
on error the Rust methods leave the selection untouched). -/
def applySelOp (s : Selection) (op : SelOp) : Selection :=
  match op with
  | .start c => (s.start c).2
  | .complete c => (s.complete c).2
  | .add_coords c => (s.add_coords c).2
  | .reset => s.reset

/-- Post-state of a sequence of Selection API calls. -/
def applySelOps (s : Selection) (ops : List SelOp) : Selection :=
  ops.foldl applySelOp s

/-- The normalization invariant of Complete selections: top_left is
componentwise at most bottom_right. -/
def selectionNormalized (s : Selection) : Bool :=
  match s.state with
  | .Complete top_left bottom_right =>
    top_left.row ≤ bottom_right.row && top_left.col ≤ bottom_right.col
  | _ => true

/-- Navigation directions of the app state machine (src/app/state.rs). -/
inductive NavigationDirection where
  | Left
  | Right
  | Up
  | Down
deriving DecidableEq, Repr

/-- Transient selection-mode state (src/app/state.rs, struct SelectingState).
The Instant timestamp is modelled as an abstract Nat. -/
structure SelectingState where
  active_monitor_index : Nat
  selection : Selection
  selection_started : Nat
deriving DecidableEq, Repr

namespace SelectingState

/-- SelectingState::new; the now argument stands for Instant::now(). -/
def mk_at (active_monitor_index : Nat) (now : Nat) : SelectingState :=
  ⟨active_monitor_index, Selection.new, now⟩

/-- SelectingState::switch_monitor: sets the index and resets the selection. -/
def switch_monitor (s : SelectingState) (monitor_index : Nat) : SelectingState :=
  { s with active_monitor_index := monitor_index, selection := s.selection.reset }

end SelectingState

/-- Application state (src/app/state.rs, enum AppState). -/
inductive AppState where
  | Idle
  | Selecting (s : SelectingState)
deriving DecidableEq, Repr

/-- State transition events (src/app/state.rs, enum StateEvent). -/
inductive StateEvent where
  | HotkeyPressed
  | KeyPressed (c : Char)
  | Navigation (d : NavigationDirection)
  | SelectionCancelled
  | SelectionCompleted
  | SelectionTimedOut
deriving DecidableEq, Repr

namespace StateMachine

/-- StateMachine::process_event: the pure transition function. The now
argument stands for Instant::now(), read when a fresh SelectingState is
created on the Idle plus HotkeyPressed transition. -/
def process_event (now : Nat) (current_state : AppState) (event : StateEvent)
    (monitor_count : Nat) : AppState :=
  match current_state, event with
  | .Idle, .HotkeyPressed => .Selecting (SelectingState.mk_at 0 now)
  | .Selecting selecting, .KeyPressed _ => .Selecting selecting
  | .Selecting selecting, .Navigation direction =>
    let new_monitor_index :=
      match direction with
      | .Left =>
        if selecting.active_monitor_index > 0 then selecting.active_monitor_index - 1
        else monitor_count - 1
      | .Right =>
        if selecting.active_monitor_index + 1 < monitor_count then
          selecting.active_monitor_index + 1
        else 0
      | .Up => selecting.active_monitor_index
      | .Down => selecting.active_monitor_index
    .Selecting (selecting.switch_monitor new_monitor_index)
  | .Selecting _, .SelectionCompleted => .Idle
  | .Selecting _, .SelectionCancelled => .Idle
  | .Selecting _, .SelectionTimedOut => .Idle
  | .Selecting _, .HotkeyPressed => .Idle
  | state, _ => state

end StateMachine

/-- Navigation directions of the input layer (src/input/keyboard.rs). -/
inductive InputNavDirection where
  | Left
  | Right
  | Up
  | Down
deriving DecidableEq, Repr

/-- Classified key events of the modal capture (src/input/keyboard.rs,
enum KeyEvent). Virtual key codes are u32 values, modelled as Nat. -/
inductive KeyEvent where
  | GridKey (c : Char)
  | Navigation (d : InputNavDirection)
  | Cancel
  | Invalid (code : Nat)
deriving DecidableEq, Repr

namespace KeyEvent

/-- KeyEvent::from_vk_code: classification of a Windows virtual key code. -/
def from_vk_code (vk_code : Nat) : Option KeyEvent :=
  match vk_code with
  | 0x51 => some (.GridKey 'Q')
  | 0x57 => some (.GridKey 'W')
  | 0x45 => some (.GridKey 'E')
  | 0x52 => some (.GridKey 'R')
  | 0x54 => some (.GridKey 'T')
  | 0x59 => some (.GridKey 'Y')
  | 0x55 => some (.GridKey 'U')
  | 0x49 => some (.GridKey 'I')
  | 0x4f => some (.GridKey 'O')
  | 0x50 => some (.GridKey 'P')
  | 0x41 => some (.GridKey 'A')
  | 0x53 => some (.GridKey 'S')
  | 0x44 => some (.GridKey 'D')
  | 0x46 => some (.GridKey 'F')
  | 0x47 => some (.GridKey 'G')
  | 0x48 => some (.GridKey 'H')
  | 0x4a => some (.GridKey 'J')
  | 0x4b => some (.GridKey 'K')
  | 0x4c => some (.GridKey 'L')
  | 0x5a => some (.GridKey 'Z')
  | 0x58 => some (.GridKey 'X')
  | 0x43 => some (.GridKey 'C')
  | 0x56 => some (.GridKey 'V')
  | 0x42 => some (.GridKey 'B')
  | 0x4e => some (.GridKey 'N')
  | 0x4d => some (.GridKey 'M')
  | 0x25 => some (.Navigation .Left)
  | 0x27 => some (.Navigation .Right)
  | 0x26 => some (.Navigation .Up)
  | 0x28 => some (.Navigation .Down)
  | 0x1b => some .Cancel
  | _ => some (.Invalid vk_code)

end KeyEvent

/-- Windows message code WM_KEYDOWN. -/
def WM_KEYDOWN : Nat := 0x100

/-- Windows message code WM_SYSKEYDOWN. -/
def WM_SYSKEYDOWN : Nat := 0x104

/-- Observable outcome of one invocation of the low-level hook callback:
either the key is consumed (LRESULT 1 is returned and the virtual key code
is posted to the main thread) or the event is passed on via
CallNextHookEx. -/
inductive HookOutcome where
  | ConsumeAndPost (vk_code : Nat)
  | PassThrough
deriving DecidableEq, Repr

/-- keyboard_hook_proc (src/input/keyboard.rs): decision logic of the
low-level keyboard hook. The installed flag models whether the global
KEYBOARD_CAPTURE_STATE slot holds a target window; code is the hook code
(processing happens only for nonnegative codes); wparam carries the
Windows message identifying key-down versus key-up. -/
def keyboard_hook_proc (installed : Bool) (code : Int) (wparam : Nat)
    (vk_code : Nat) : HookOutcome :=
  if code < 0 then .PassThrough
  else if !installed then .PassThrough
  else if wparam ≠ WM_KEYDOWN ∧ wparam ≠ WM_SYSKEYDOWN then .PassThrough
  else
    match KeyEvent.from_vk_code vk_code with
    | some _ => .ConsumeAndPost vk_code
    | none => .PassThrough

/-- State-relevant part of the AppController (src/app/controller.rs): the
shared AppState, the per-monitor grids, and the monitor count. Overlay,
capture and window-positioning side effects have no bearing on the state
transitions modelled here. -/
structure ControllerModel where
  state : AppState
  grids : List Grid
  monitor_count : Nat
deriving DecidableEq, Repr

namespace ControllerModel

/-- AppController::process_event: feeds the state machine and stores the
new state. -/
def process_event (m : ControllerModel) (now : Nat) (event : StateEvent) : ControllerModel :=
  { m with state := StateMachine.process_event now m.state event m.monitor_count }

/-- State effect of AppController::apply_selection: after the attempt to
position the window (a platform side effect outside this model), the
controller always processes SelectionCompleted. -/
def apply_selection (m : ControllerModel) (now : Nat) : ControllerModel :=
  m.process_event now .SelectionCompleted

/-- State effect of AppController::handle_key_press: silently ignores keys
outside the active grid; on a valid key feeds the coordinates to
Selection::add_coords, applying the selection when it completes and
cancelling on a selection error. -/
def handle_key_press (m : ControllerModel) (now : Nat) (key : Char) : ControllerModel :=
  match m.state with
  | .Selecting selecting =>
    match m.grids.get? selecting.active_monitor_index with
    | some grid =>
      if grid.contains_key key then
        match grid.key_to_coords key with
        | .ok coords =>
          match selecting.selection.add_coords coords with
          | (.ok _, sel) =>
            let selecting := { selecting with selection := sel }
            let m := { m with state := .Selecting selecting }
            if selecting.selection.is_complete then m.apply_selection now else m
          | (.error _, _) => m.process_event now .SelectionCancelled
        | .error _ => m.process_event now .SelectionCancelled
      else m
    | none => m
  | .Idle => m

/-- State effect of AppController::handle_navigation. -/
def handle_navigation (m : ControllerModel) (now : Nat) (direction : NavigationDirection) :
    ControllerModel :=
  m.process_event now (.Navigation direction)

/-- State effect of AppController::handle_cancellation. -/
def handle_cancellation (m : ControllerModel) (now : Nat) : ControllerModel :=
  m.process_event now .SelectionCancelled

/-- State effect of AppController::handle_keyboard_event: parses the
posted virtual key code and dispatches on the classified event; the
Invalid arm of the match does nothing. -/
def handle_keyboard_event (m : ControllerModel) (now : Nat) (vk_code : Nat) : ControllerModel :=
  match KeyEvent.from_vk_code vk_code with
  | some key_event =>
    match key_event with
    | .GridKey ch => m.handle_key_press now ch
    | .Navigation direction =>
      let app_direction : NavigationDirection :=
        match direction with
        | .Left => .Left
        | .Right => .Right
        | .Up => .Up
        | .Down => .Down
      m.handle_navigation now app_direction
    | .Cancel => m.handle_cancellation now
    | .Invalid _ => m
  | none => m

end ControllerModel

/-- The grid of the C1 scenario: 2 rows and 3 columns over a 1920 x 1080
screen area at the origin. -/
def scenarioGrid : Grid :=
  ⟨2, 3, Rect.new 0 0 1920 1080, 640, 540, ⟨3, 2⟩⟩

/-- C1: for a grid constructed with 2 rows and 3 columns over
Rect(0,0,1920,1080), the cell size is 640 x 540, key Q maps to (0,0) and
key S to (1,1), and both keys_to_rect Q S and coords_to_rect (0,0) (1,1)
yield Rect(0,0,1280,1080). -/
theorem c1_scenario_2x3_grid :
    Grid.new 2 3 (Rect.new 0 0 1920 1080) = .ok scenarioGrid ∧
    scenarioGrid.cell_width = 640 ∧
    scenarioGrid.cell_height = 540 ∧
    scenarioGrid.keyboard_layout.key_to_coords 'Q' = .ok (GridCoords.new 0 0) ∧
    scenarioGrid.keyboard_layout.key_to_coords 'S' = .ok (GridCoords.new 1 1) ∧
    scenarioGrid.keys_to_rect 'Q' 'S' = .ok (Rect.new 0 0 1280 1080) ∧
    scenarioGrid.coords_to_rect (GridCoords.new 0 0) (GridCoords.new 1 1) =
      .ok (Rect.new 0 0 1280 1080) := by
  refine ⟨?_, rfl, rfl, ?_, ?_, ?_, ?_⟩ <;> rfl

/-- C4: normalize_coordinates is commutative in its two arguments, and for
every Grid and all in-bounds coordinate pairs coords_to_rect is
commutative as well. -/
theorem c4_pair_operations_commutative :
    (∀ a b : GridCoords, normalize_coordinates a b = normalize_coordinates b a) ∧
    (∀ (g : Grid) (a b : GridCoords),
      g.contains_coords a = true → g.contains_coords b = true →
      g.coords_to_rect a b = g.coords_to_rect b a) := by
  constructor
  · intro a b
    simp [normalize_coordinates, Nat.min_comm, Nat.max_comm]
  · intro g a b ha hb
    simp [Grid.coords_to_rect, ha, hb, Nat.min_comm, Nat.max_comm]

/-- C4 witness: commutativity of coords_to_rect at a concrete grid and a
concrete in-bounds coordinate pair. -/
theorem c4_pair_operations_commutative_witness :
    scenarioGrid.contains_coords (GridCoords.new 0 1) = true ∧
    scenarioGrid.contains_coords (GridCoords.new 1 0) = true ∧
    scenarioGrid.coords_to_rect (GridCoords.new 0 1) (GridCoords.new 1 0) =
      scenarioGrid.coords_to_rect (GridCoords.new 1 0) (GridCoords.new 0 1) :=
  ⟨by decide, by decide,
    c4_pair_operations_commutative.2 scenarioGrid _ _ (by decide) (by decide)⟩

/-- C3 counterexample: in a Selecting state whose selection is InProgress,
processing Navigation(Up) does not leave the state unchanged: the
selection is reset by switch_monitor. -/
theorem c3_up_not_noop_counterexample :
    StateMachine.process_event 0
      (.Selecting ⟨0, ⟨.InProgress (GridCoords.new 0 0)⟩, 5⟩) (.Navigation .Up) 3 ≠
      .Selecting ⟨0, ⟨.InProgress (GridCoords.new 0 0)⟩, 5⟩ := by
  decide

/-- C3 amended: for every Selecting state, Navigation(Up) and
Navigation(Down) preserve active_monitor_index and the selection_started
timestamp but reset the selection to NotStarted (so they are no-ops only
when the selection has not been started). -/
theorem c3_up_down_keep_monitor_reset_selection :
    ∀ (now : Nat) (s : SelectingState) (monitor_count : Nat),
      StateMachine.process_event now (.Selecting s) (.Navigation .Up) monitor_count =
        .Selecting ⟨s.active_monitor_index, Selection.new, s.selection_started⟩ ∧
      StateMachine.process_event now (.Selecting s) (.Navigation .Down) monitor_count =
        .Selecting ⟨s.active_monitor_index, Selection.new, s.selection_started⟩ := by
  intro now s monitor_count
  exact ⟨rfl, rfl⟩

/-- Preservation of the normalization invariant across one Selection API
call: every call either keeps the selection untouched, moves it out of
Complete, or produces a Complete value through normalize_coordinates. -/
theorem applySelOp_preserves_normalized (s : Selection) (op : SelOp)
    (h : selectionNormalized s = true) :
    selectionNormalized (applySelOp s op) = true := by
  cases op with
  | start c => simp [applySelOp, Selection.start, selectionNormalized]
  | reset => simp [applySelOp, Selection.reset, selectionNormalized]
  | complete c =>
    cases hs : s.state with
    | NotStarted => simpa [applySelOp, Selection.complete, hs] using h
    | InProgress st =>
      simp [applySelOp, Selection.complete, hs, selectionNormalized,
        normalize_coordinates, GridCoords.new, min_le_max]
    | Complete tl br => simpa [applySelOp, Selection.complete, hs] using h
  | add_coords c =>
    cases hs : s.state with
    | NotStarted => simp [applySelOp, Selection.add_coords, Selection.start, hs,
        selectionNormalized]
    | InProgress st =>
      simp [applySelOp, Selection.add_coords, Selection.complete, hs,
        selectionNormalized, normalize_coordinates, GridCoords.new, min_le_max]
    | Complete tl br => simpa [applySelOp, Selection.add_coords, hs] using h

/-- C5: every Selection produced from Selection::new by any sequence of
start, complete, add_coords and reset calls, and every Selection produced
by from_coords in either coordinate order, satisfies the Complete-state
invariant top_left.row less-or-equal bottom_right.row and top_left.col
less-or-equal bottom_right.col. -/
theorem c5_complete_selection_is_normalized :
    (∀ ops : List SelOp, selectionNormalized (applySelOps Selection.new ops) = true) ∧
    (∀ a b : GridCoords, selectionNormalized (Selection.from_coords a b) = true) := by
  constructor
  · have gen : ∀ (ops : List SelOp) (s : Selection), selectionNormalized s = true →
        selectionNormalized (applySelOps s ops) = true := by
      intro ops
      induction ops with
      | nil => intro s h; exact h
      | cons op rest ih =>
        intro s h
        exact ih _ (applySelOp_preserves_normalized s op h)
    intro ops
    exact gen ops Selection.new rfl
  · intro a b
    simp [Selection.from_coords, selectionNormalized, normalize_coordinates,
      GridCoords.new, min_le_max]

/-- C8: complete fails with NoSelectionStarted from NotStarted and with
SelectionAlreadyComplete from Complete, leaving the selection unchanged in
both error cases; add_coords fails (with SelectionAlreadyComplete) exactly
when the selection is Complete, and otherwise routes to start or complete
and succeeds. -/
theorem c8_selection_error_protocol :
    ∀ (s : Selection) (coords : GridCoords),
      (s.state = .NotStarted →
        s.complete coords = (.error .NoSelectionStarted, s) ∧
        s.add_coords coords = s.start coords ∧
        (s.add_coords coords).1 = .ok ()) ∧
      (∀ tl br, s.state = .Complete tl br →
        s.complete coords = (.error .SelectionAlreadyComplete, s) ∧
        s.add_coords coords = (.error .SelectionAlreadyComplete, s)) ∧
      (∀ st, s.state = .InProgress st →
        s.add_coords coords = s.complete coords ∧
        (s.add_coords coords).1 = .ok ()) := by
  intro s coords
  refine ⟨?_, ?_, ?_⟩
  · intro h
    exact ⟨by simp [Selection.complete, h], by simp [Selection.add_coords, h],
      by simp [Selection.add_coords, Selection.start, h]⟩
  · intro tl br h
    exact ⟨by simp [Selection.complete, h], by simp [Selection.add_coords, h]⟩
  · intro st h
    exact ⟨by simp [Selection.add_coords, h],
      by simp [Selection.add_coords, Selection.complete, h]⟩

/-- C8 witness: the error protocol at concrete selections in each state. -/
theorem c8_selection_error_protocol_witness :
    Selection.complete ⟨.NotStarted⟩ (GridCoords.new 0 0) =
      (.error .NoSelectionStarted, ⟨.NotStarted⟩) ∧
    Selection.complete ⟨.Complete (GridCoords.new 0 0) (GridCoords.new 1 1)⟩
        (GridCoords.new 2 2) =
      (.error .SelectionAlreadyComplete,
        ⟨.Complete (GridCoords.new 0 0) (GridCoords.new 1 1)⟩) ∧
    (Selection.add_coords ⟨.InProgress (GridCoords.new 1 1)⟩ (GridCoords.new 0 0)).1 =
      .ok () :=
  ⟨((c8_selection_error_protocol ⟨.NotStarted⟩ (GridCoords.new 0 0)).1 rfl).1,
    ((c8_selection_error_protocol _ (GridCoords.new 2 2)).2.1 _ _ rfl).1,
    ((c8_selection_error_protocol _ (GridCoords.new 0 0)).2.2 _ rfl).2⟩

/-- C2 counterexample: in a concrete Selecting state, handling a posted
keyboard event with virtual key code 0x20 (space), which the classifier
reports as KeyEvent::Invalid, leaves the controller state unchanged; in
particular the state does not return to Idle. -/
theorem c2_invalid_key_counterexample :
    KeyEvent.from_vk_code 0x20 = some (.Invalid 0x20) ∧
    ControllerModel.handle_keyboard_event
        ⟨.Selecting ⟨0, Selection.new, 0⟩, [scenarioGrid], 1⟩ 7 0x20 =
      ⟨.Selecting ⟨0, Selection.new, 0⟩, [scenarioGrid], 1⟩ ∧
    (ControllerModel.handle_keyboard_event
        ⟨.Selecting ⟨0, Selection.new, 0⟩, [scenarioGrid], 1⟩ 7 0x20).state ≠
      AppState.Idle := by
  refine ⟨rfl, rfl, ?_⟩
  decide

/-- C2 amended: handling a keyboard event that the classifier reports as
KeyEvent::Invalid leaves the controller state unchanged (the event is
silently ignored; it does not cancel the selection). -/
theorem c2_invalid_key_silently_ignored :
    ∀ (m : ControllerModel) (now vk_code code : Nat),
      KeyEvent.from_vk_code vk_code = some (.Invalid code) →
      m.handle_keyboard_event now vk_code = m := by
  intro m now vk_code code h
  unfold ControllerModel.handle_keyboard_event
  rw [h]

/-- C2 witness: the amended claim at a concrete state and key code. -/
theorem c2_invalid_key_silently_ignored_witness :
    ControllerModel.handle_keyboard_event
        ⟨.Selecting ⟨1, Selection.new, 3⟩, [scenarioGrid], 1⟩ 0 0x30 =
      ⟨.Selecting ⟨1, Selection.new, 3⟩, [scenarioGrid], 1⟩ :=
  c2_invalid_key_silently_ignored _ 0 0x30 0x30 rfl

/-- C9: in a Selecting state with an in-range monitor index,
Navigation(Left) and Navigation(Right) move to the previous and next
monitor index with wraparound over the interval from 0 to monitor_count,
and in particular from index 0 of 3 monitors Left yields 2 and from index
2 Right yields 0. -/
theorem c9_navigation_wraparound :
    (∀ (now : Nat) (s : SelectingState) (monitor_count : Nat),
      s.active_monitor_index < monitor_count →
      StateMachine.process_event now (.Selecting s) (.Navigation .Left) monitor_count =
        .Selecting (s.switch_monitor
          ((s.active_monitor_index + monitor_count - 1) % monitor_count)) ∧
      StateMachine.process_event now (.Selecting s) (.Navigation .Right) monitor_count =
        .Selecting (s.switch_monitor ((s.active_monitor_index + 1) % monitor_count))) ∧
    StateMachine.process_event 0 (.Selecting ⟨0, Selection.new, 0⟩) (.Navigation .Left) 3 =
      .Selecting ⟨2, Selection.new, 0⟩ ∧
    StateMachine.process_event 0 (.Selecting ⟨2, Selection.new, 0⟩) (.Navigation .Right) 3 =
      .Selecting ⟨0, Selection.new, 0⟩ := by
  refine ⟨?_, by decide, by decide⟩
  intro now s monitor_count hlt
  constructor
  · have hL : StateMachine.process_event now (.Selecting s) (.Navigation .Left)
        monitor_count =
        .Selecting (s.switch_monitor
          (if s.active_monitor_index > 0 then s.active_monitor_index - 1
           else monitor_count - 1)) := rfl
    have hidx : (if s.active_monitor_index > 0 then s.active_monitor_index - 1
        else monitor_count - 1) =
        (s.active_monitor_index + monitor_count - 1) % monitor_count := by
      rcases Nat.eq_zero_or_pos s.active_monitor_index with h0 | hpos
      · rw [h0, if_neg (by omega)]
        have : 0 + monitor_count - 1 = monitor_count - 1 := by omega
        rw [this, Nat.mod_eq_of_lt (by omega)]
      · rw [if_pos hpos, Nat.mod_eq_sub_mod (by omega)]
        have : s.active_monitor_index + monitor_count - 1 - monitor_count =
            s.active_monitor_index - 1 := by omega
        rw [this, Nat.mod_eq_of_lt (by omega)]
    rw [hL, hidx]
  · have hR : StateMachine.process_event now (.Selecting s) (.Navigation .Right)
        monitor_count =
        .Selecting (s.switch_monitor
          (if s.active_monitor_index + 1 < monitor_count then s.active_monitor_index + 1
           else 0)) := rfl
    have hidx : (if s.active_monitor_index + 1 < monitor_count then
        s.active_monitor_index + 1 else 0) =
        (s.active_monitor_index + 1) % monitor_count := by
      by_cases hlt1 : s.active_monitor_index + 1 < monitor_count
      · rw [if_pos hlt1, Nat.mod_eq_of_lt hlt1]
      · have heq : s.active_monitor_index + 1 = monitor_count := by omega
        rw [if_neg hlt1, heq, Nat.mod_self]
    rw [hR, hidx]

/-- C9 witness: the general wraparound statement applied at index 0 of 3
monitors for Left. -/
theorem c9_navigation_wraparound_witness :
    (0 : Nat) < 3 ∧
    StateMachine.process_event 4 (.Selecting ⟨0, Selection.new, 9⟩) (.Navigation .Left) 3 =
      .Selecting (SelectingState.switch_monitor ⟨0, Selection.new, 9⟩ ((0 + 3 - 1) % 3)) :=
  ⟨by decide, (c9_navigation_wraparound.1 4 ⟨0, Selection.new, 9⟩ 3 (by decide)).1⟩

/-- C7: Grid::new fails with InvalidDimensions whenever rows or cols is
zero, for every screen area; and for positive rows and cols it fails with
ScreenTooSmall whenever the derived cell size is below the 480 x 360
minimum. -/
theorem c7_grid_construction_rejections :
    (∀ (n : Nat) (area : Rect), Grid.new 0 n area = .error (.InvalidDimensions 0 n)) ∧
    (∀ (n : Nat) (area : Rect), Grid.new n 0 area = .error (.InvalidDimensions n 0)) ∧
    (∀ (rows cols : Nat) (area : Rect), 0 < rows → 0 < cols →
      (u32_of_i32 area.w / cols < Grid.MIN_CELL_WIDTH ∨
        u32_of_i32 area.h / rows < Grid.MIN_CELL_HEIGHT) →
      Grid.new rows cols area =
        .error (.ScreenTooSmall (u32_of_i32 area.w) (u32_of_i32 area.h)
          Grid.MIN_CELL_WIDTH Grid.MIN_CELL_HEIGHT)) := by
  refine ⟨?_, ?_, ?_⟩
  · intro n area
    simp [Grid.new]
  · intro n area
    simp [Grid.new]
  · intro rows cols area hr hc hsmall
    have hdim : ¬(rows = 0 ∨ cols = 0) := by omega
    unfold Grid.new
    rw [if_neg hdim]
    simp only []
    rw [if_pos hsmall]

/-- C7 witness: the rejections at concrete dimensions and screen areas. -/
theorem c7_grid_construction_rejections_witness :
    Grid.new 0 2 (Rect.new 0 0 1920 1080) = .error (.InvalidDimensions 0 2) ∧
    Grid.new 3 0 (Rect.new 0 0 1920 1080) = .error (.InvalidDimensions 3 0) ∧
    Grid.new 3 2 (Rect.new 0 0 800 600) =
      .error (.ScreenTooSmall 800 600 480 360) :=
  ⟨c7_grid_construction_rejections.1 2 (Rect.new 0 0 1920 1080),
    c7_grid_construction_rejections.2.1 3 (Rect.new 0 0 1920 1080),
    c7_grid_construction_rejections.2.2 3 2 (Rect.new 0 0 800 600)
      (by decide) (by decide) (by decide)⟩

/-- C6: for every constructed QwertyLayout the key-coordinate mapping is a
bijection within bounds: coords_to_key followed by key_to_coords is the
identity on in-bounds coordinates, and key_to_coords followed by
coords_to_key is the identity on the valid keys of the layout. -/
theorem c6_key_coordinate_bijection :
    ∀ (cols rows : Nat) (L : QwertyLayout), QwertyLayout.new cols rows = .ok L →
      (∀ r c : Nat, r < L.rows → c < L.cols →
        Except.bind (L.coords_to_key (GridCoords.new r c)) L.key_to_coords =
          .ok (GridCoords.new r c)) ∧
      (∀ k, k ∈ L.valid_keys →
        Except.bind (L.key_to_coords k) L.coords_to_key = .ok k) := by
  intro cols rows L h
  unfold QwertyLayout.new at h
  split at h
  · exact absurd h (by simp)
  · rename_i hcond
    injection h with h
    push_neg at hcond
    obtain ⟨hc0, hr0, hc4, hr3⟩ := hcond
    have hc1 : 1 ≤ cols := Nat.pos_of_ne_zero hc0
    have hr1 : 1 ≤ rows := Nat.pos_of_ne_zero hr0
    subst h
    interval_cases cols <;> interval_cases rows <;>
      refine ⟨fun r c hr hc => ?_, by decide⟩ <;>
      interval_cases r <;> interval_cases c <;> rfl

/-- C6 witness: both round trips at the 3 x 2 layout of the default grid. -/
theorem c6_key_coordinate_bijection_witness :
    Except.bind (QwertyLayout.coords_to_key ⟨3, 2⟩ (GridCoords.new 1 1))
        (QwertyLayout.key_to_coords ⟨3, 2⟩) = .ok (GridCoords.new 1 1) ∧
    Except.bind (QwertyLayout.key_to_coords ⟨3, 2⟩ 'S')
        (QwertyLayout.coords_to_key ⟨3, 2⟩) = .ok 'S' :=
  ⟨(c6_key_coordinate_bijection 3 2 ⟨3, 2⟩ rfl).1 1 1 (by decide) (by decide),
    (c6_key_coordinate_bijection 3 2 ⟨3, 2⟩ rfl).2 'S' (by decide)⟩

/-- Totality of the classifier: every virtual key code is classified. -/
theorem from_vk_code_isSome (vk_code : Nat) :
    (KeyEvent.from_vk_code vk_code).isSome = true := by
  unfold KeyEvent.from_vk_code
  split <;> rfl

/-- C10: KeyEvent::from_vk_code returns some event for every virtual key
code (unmapped codes become Invalid, never none), and consequently while
the capture state is installed the hook consumes every key-down, returning
the consume outcome that blocks propagation and posts the code to the main
thread. -/
theorem c10_classifier_total_hook_consumes_keydowns :
    (∀ vk_code : Nat, (KeyEvent.from_vk_code vk_code).isSome = true) ∧
    (∀ code : Nat, KeyEvent.from_vk_code code ≠ none) ∧
    (∀ (code : Int) (wparam vk_code : Nat), 0 ≤ code →
      (wparam = WM_KEYDOWN ∨ wparam = WM_SYSKEYDOWN) →
      keyboard_hook_proc true code wparam vk_code = .ConsumeAndPost vk_code) := by
  refine ⟨from_vk_code_isSome, ?_, ?_⟩
  · intro code hnone
    have := from_vk_code_isSome code
    rw [hnone] at this
    exact absurd this (by simp)
  · intro code wparam vk_code hcode hw
    unfold keyboard_hook_proc
    rw [if_neg (by omega)]
    rw [if_neg (by simp)]
    rw [if_neg (by rcases hw with h | h <;> simp [h])]
    obtain ⟨e, he⟩ := Option.isSome_iff_exists.mp (from_vk_code_isSome vk_code)
    rw [he]

/-- C10 witness: the hook consumes a concrete unmapped key-down (space,
0x20) while installed. -/
theorem c10_hook_consumes_witness :
    keyboard_hook_proc true 0 WM_KEYDOWN 0x20 = .ConsumeAndPost 0x20 :=
  c10_classifier_total_hook_consumes_keydowns.2.2 0 WM_KEYDOWN 0x20 (by omega)
    (Or.inl rfl)

end TactileWin
